import Mathlib

/-!
Shallow embedding of the handball-stats match/event session core:
the pure data model in `stats_engine.py`, the serialization and store
boundary in `google_io.py`, and the wizard state machine driven by the
button/dialog handlers of `ui_app.py`.  Side-effecting collaborators
(the spreadsheet-backed Record Store, wall-clock time) are made explicit:
time is a `now : String` parameter, and the stats sheet is a `Store`
value threaded through the handlers, with a `fail` flag modelling a
raising remote append.
-/

/-! ## Python string primitives used by the source -/

/-- Whitespace characters stripped by Python `str.strip()` (ASCII range). -/
def pyIsSpace (c : Char) : Bool :=
  c = ' ' || c = '\t' || c = '\n' || c = '\r' || c = Char.ofNat 11 || c = Char.ofNat 12

/-- Drop leading and trailing whitespace from a character list. -/
def stripChars (l : List Char) : List Char :=
  ((l.dropWhile pyIsSpace).reverse.dropWhile pyIsSpace).reverse

/-- Python `s.strip()`. -/
def pyStrip (s : String) : String :=
  String.mk (stripChars s.data)

/-- Python `s.replace(" ", "_")`: the pattern is a single character, so the
call is a character-wise map sending each space to an underscore. -/
def spaceToUnderscore (s : String) : String :=
  String.mk (s.data.map (fun c => if c = ' ' then '_' else c))

/-- Zero-pad a natural to two digits, as `%m` / `%d` do. -/
def pad2 (n : Nat) : String :=
  if n < 10 then "0" ++ toString n else toString n

/-- Zero-pad a natural to four digits, as `%Y` does. -/
def pad4 (n : Nat) : String :=
  if n < 10 then "000" ++ toString n
  else if n < 100 then "00" ++ toString n
  else if n < 1000 then "0" ++ toString n
  else toString n

/-- A `datetime.date` value: year, month, day. -/
structure PyDate where
  year : Nat
  month : Nat
  day : Nat
deriving DecidableEq, Repr

/-- `date.strftime("%Y-%m-%d")`. -/
def strftimeYmd (d : PyDate) : String :=
  pad4 d.year ++ "-" ++ pad2 d.month ++ "-" ++ pad2 d.day

/-! ## stats_engine.py: pure data construction -/

/-- A row of the match index (`create_match` result). -/
structure Match where
  match_id : String
  date : String
  team_number : String
  opponent : String
deriving DecidableEq, Repr

/-- A roster entry as produced by `load_players`. -/
structure Player where
  name : String
  pos_primary : String
  pos_secondary : String
  team_primary : String
  team_secondary : String
deriving DecidableEq, Repr

/-- An event dict.  The Python dicts omit keys that were never assigned, so
`half`, `delta` and `meta_value` are `Option`s: `none` models an absent key. -/
structure Event where
  timestamp : String
  match_id : String
  half : Option Nat
  player : String
  event : String
  pos_primary : String
  team_primary : String
  delta : Option Int
  meta_value : Option String
deriving DecidableEq, Repr

/-- `stats_engine.create_match_id(match_date, team_number, opponent)`:
`opp_clean = opponent.strip().replace(" ", "_")` and then the f-string
`f"{match_date.strftime('%Y-%m-%d')}_H{team_number}_{opp_clean}"`. -/
def create_match_id (match_date : PyDate) (team_number opponent : String) : String :=
  strftimeYmd match_date ++ "_H" ++ team_number ++ "_"
    ++ spaceToUnderscore (pyStrip opponent)

/-- `stats_engine.create_match`. -/
def create_match (match_date : PyDate) (team_number opponent : String) : Match :=
  { match_id := create_match_id match_date team_number opponent
    date := strftimeYmd match_date
    team_number := team_number
    opponent := pyStrip opponent }

/-- `stats_engine.build_event(player, event_type, match_id)`: stamps the
current time (`now`), copies name/position/team from the player, and leaves
the `half`, `delta` and `meta_value` keys unset. -/
def build_event (now : String) (player : Player) (event_type match_id : String) : Event :=
  { timestamp := now
    match_id := match_id
    half := none
    player := player.name
    event := event_type
    pos_primary := player.pos_primary
    team_primary := player.team_primary
    delta := none
    meta_value := none }

/-! ## google_io.py: serialization and the stats worksheet -/

/-- One appended spreadsheet row
`Timestamp | MatchID | Half | Player | Event | Position | Team | Delta | MetaValue`.
The `Half` cell is an int when the key was present and the empty default
otherwise, so it stays an `Option`. -/
structure Row where
  ts : String
  match_id : String
  half : Option Nat
  player : String
  event : String
  pos : String
  team : String
  delta : Int
  meta : String
deriving DecidableEq, Repr

/-- `google_io._event_to_row(event)`: each cell is `event.get(key, default)`;
the `Delta` cell is `int(event.get("delta", 1))`. -/
def event_to_row (event : Event) : Row :=
  { ts := event.timestamp
    match_id := event.match_id
    half := event.half
    player := event.player
    event := event.event
    pos := event.pos_primary
    team := event.team_primary
    delta := event.delta.getD 1
    meta := event.meta_value.getD "" }

/-- The stats worksheet of the Record Store, with instrumentation: the rows
appended so far, how many times the worksheet was opened, and how many batch
append calls were made.  `fail` models a remote store whose worksheet access
raises (network/auth/quota error). -/
structure Store where
  fail : Bool
  stats_rows : List Row
  worksheet_opens : Nat
  append_calls : Nat
deriving DecidableEq, Repr

/-- `google_io.write_stats_rows(events)`: returns immediately when `events`
is empty; otherwise opens the stats worksheet and appends all serialized rows
in one `append_rows` call.  A raising remote call is `Except.error`. -/
def write_stats_rows (events : List Event) (store : Store) : Except Unit Store :=
  if events.isEmpty then Except.ok store
  else if store.fail then Except.error ()
  else Except.ok
    { store with
      stats_rows := store.stats_rows ++ events.map event_to_row
      worksheet_opens := store.worksheet_opens + 1
      append_calls := store.append_calls + 1 }

/-! ## ui_app.py: session state and the wizard handlers -/

/-- The `st.session_state` slots the wizard uses (`defaults` dict keys).
`none` models Python `None`. -/
structure Session where
  wizard_step : Nat
  current_match : Option Match
  match_players : List Player
  events : List Event
  selected_event : Option String
  selected_player : Option String
  current_half : Nat
deriving DecidableEq, Repr

/-- The `defaults` dict of `ui_app.py` (lines 39-47). -/
def defaults : Session :=
  { wizard_step := 1
    current_match := none
    match_players := []
    events := []
    selected_event := none
    selected_player := none
    current_half := 1 }

/-- `ui_app.find_player(players, name)`: `None` for a falsy name, else the
first roster entry with that exact name. -/
def find_player (players : List Player) (name : String) : Option Player :=
  if name = "" then none
  else players.find? (fun p => p.name = name)

/-- `ui_app.make_meta_event(match_id, event, value)`; the half is read from
`st.session_state["current_half"]`, passed explicitly here. -/
def make_meta_event (now : String) (current_half : Nat) (match_id ev value : String) : Event :=
  { timestamp := now
    match_id := match_id
    half := some current_half
    player := ""
    event := ev
    pos_primary := ""
    team_primary := ""
    delta := some 0
    meta_value := some value }

/-- The f-string `f"{ours}-{opp}"` on the two score inputs. -/
def score_text (ours opp : Nat) : String :=
  toString ours ++ "-" ++ toString opp

/-- `match["match_id"]` for the session's current match (set on entering the
Record step). -/
def session_match_id (s : Session) : String :=
  (s.current_match.map Match.match_id).getD ""

/-- The `Start kamp` button handler of `step_select_players`: an empty
selection only warns (`st.warning`) and returns with the state untouched;
otherwise `match_players` becomes the roster entries whose name is in the
selection and the wizard advances to step 3.  The `Bool` is the warning. -/
def start_match_click (players : List Player) (selected : List String)
    (s : Session) : Session × Bool :=
  if selected.isEmpty then (s, true)
  else
    ({ s with
        match_players := players.filter (fun p => selected.contains p.name)
        wizard_step := 3 },
      false)

/-- The `Registrer` button is rendered with `disabled=not can` where
`can = bool(selected_event) and bool(selected_player)`: both `None` and the
empty string are falsy. -/
def register_enabled (s : Session) : Bool :=
  !((s.selected_event.getD "") = "") && !((s.selected_player.getD "") = "")

/-- The `Registrer` click handler of `step_record`.  On a lookup miss it
warns, sets `selected_player = None` and calls `st.rerun()`, which raises and
ends the script run there, so `selected_event` keeps its value and no event
is built.  On a hit it builds the event, stamps `half = current_half`,
appends it, and clears both selection slots.  The `Bool` is the warning. -/
def register_click (now : String) (s : Session) : Session × Bool :=
  match find_player s.match_players (s.selected_player.getD "") with
  | none => ({ s with selected_player := none }, true)
  | some p =>
    let ev0 := build_event now p (s.selected_event.getD "") (session_match_id s)
    let ev := { ev0 with half := some s.current_half }
    ({ s with
        events := s.events ++ [ev]
        selected_event := none
        selected_player := none },
      false)

/-- The `Gem` handler of `half_dialog`: appends one `HALVLEG_RESULTAT` meta
event carrying the score text. -/
def half_dialog_save (now : String) (match_id : String) (ours opp : Nat)
    (s : Session) : Session :=
  { s with
    events := s.events
      ++ [make_meta_event now s.current_half match_id "HALVLEG_RESULTAT" (score_text ours opp)] }

/-- The user-triggered mutations inside the Record step (`step_record`):
the two half buttons, the half-time dialog save, the register button, and
the event-type / player selection buttons. -/
inductive RecordAction where
  | setHalfOne : RecordAction
  | setHalfTwo : RecordAction
  | halfDialogSave (ours opp : Nat) : RecordAction
  | registerClick : RecordAction
  | selectType (label : String) : RecordAction
  | selectPlayerBtn (name : String) : RecordAction
deriving DecidableEq, Repr

/-- Dispatch of the `step_record` handlers over session and store.  None of
these handlers calls into `google_io`, so the store passes through
unchanged by construction, mirroring the absence of any store call in the
source of `step_record` and `half_dialog`. -/
def step_record_action (now : String) (a : RecordAction) (s : Session)
    (store : Store) : Session × Store :=
  match a with
  | RecordAction.setHalfOne => ({ s with current_half := 1 }, store)
  | RecordAction.setHalfTwo => ({ s with current_half := 2 }, store)
  | RecordAction.halfDialogSave ours opp =>
      (half_dialog_save now (session_match_id s) ours opp s, store)
  | RecordAction.registerClick => ((register_click now s).1, store)
  | RecordAction.selectType label => ({ s with selected_event := some label }, store)
  | RecordAction.selectPlayerBtn name => ({ s with selected_player := some name }, store)

/-- The `Gem og afslut kamp` handler of `end_dialog` (Record to Summary).
Faithful to the source order: FIRST extend `events` with the three meta
events, THEN call `write_stats_rows` on the whole list, THEN set
`wizard_step = 4`.  When the write raises, the exception ends the script
run before the step assignment, but the extension of `events` has already
happened. -/
def end_dialog_save (now : String) (match_id : String) (ours opp : Nat)
    (mvp comment : String) (s : Session) (store : Store) :
    Session × Except Unit Store :=
  let s1 := { s with
    events := s.events ++
      [ make_meta_event now s.current_half match_id "SLUT_RESULTAT" (score_text ours opp),
        make_meta_event now s.current_half match_id "KAMPENS_SPILLER" mvp,
        make_meta_event now s.current_half match_id "KOMMENTAR" (pyStrip comment) ] }
  match write_stats_rows s1.events store with
  | Except.error e => (s1, Except.error e)
  | Except.ok store2 => ({ s1 with wizard_step := 4 }, Except.ok store2)

/-- The `Start ny kamp` handler of `step_summary` (Summary to CreateMatch):
`for k in defaults: st.session_state[k] = defaults[k]`, no store call. -/
def start_new_match_click (s : Session) (store : Store) : Session × Store :=
  ({ s with
      wizard_step := defaults.wizard_step
      current_match := defaults.current_match
      match_players := defaults.match_players
      events := defaults.events
      selected_event := defaults.selected_event
      selected_player := defaults.selected_player
      current_half := defaults.current_half },
    store)

/-! ## Concrete fixtures used by counterexamples and witnesses -/

/-- A concrete roster entry. -/
def anna : Player :=
  { name := "Anna", pos_primary := "VF", pos_secondary := ""
    team_primary := "1", team_secondary := "" }

/-- A Record-step session whose armed player name is stale (not on the
match roster), with an armed event type. -/
def s_ghost : Session :=
  { wizard_step := 3
    current_match := some (create_match ⟨2024, 3, 1⟩ "1" "FC Falcon")
    match_players := [anna]
    events := []
    selected_event := some "Mål"
    selected_player := some "Ghost"
    current_half := 1 }

/-- A reachable store whose remote calls succeed. -/
def store_ok : Store :=
  { fail := false, stats_rows := [], worksheet_opens := 0, append_calls := 0 }

/-- A store whose remote append raises. -/
def store_down : Store :=
  { fail := true, stats_rows := [], worksheet_opens := 0, append_calls := 0 }

/-- One registered event, as the Record step stamps it. -/
def ev_anna : Event :=
  { build_event "t1" anna "Mål" "2024-03-01_H1_FC_Falcon" with half := some 1 }

/-- A Record-step session holding one registration, about to end the match. -/
def s_pre : Session :=
  { wizard_step := 3
    current_match := some (create_match ⟨2024, 3, 1⟩ "1" "FC Falcon")
    match_players := [anna]
    events := [ev_anna]
    selected_event := none
    selected_player := none
    current_half := 2 }

/-- Two opponent strings differ only in internal spacing: they are distinct,
their non-whitespace characters agree in order, and neither carries leading
or trailing whitespace (so every difference is in interior whitespace). -/
abbrev differ_only_in_internal_spacing (o1 o2 : String) : Prop :=
  o1 ≠ o2
  ∧ o1.data.filter (fun c => !(pyIsSpace c)) = o2.data.filter (fun c => !(pyIsSpace c))
  ∧ stripChars o1.data = o1.data
  ∧ stripChars o2.data = o2.data

/-! ## Claim theorems -/

/-- Claim C4: `create_match_id` is deterministic, its output is the
`YYYY-MM-DD` date, then `_H` and the team number, then the trimmed opponent
with each space replaced by an underscore; team `1` against `FC Falcon` on
2024-03-01 yields `2024-03-01_H1_FC_Falcon`. -/
theorem create_match_id_spec :
    (∀ d1 d2 : PyDate, ∀ t1 t2 o1 o2 : String, d1 = d2 → t1 = t2 → o1 = o2 →
      create_match_id d1 t1 o1 = create_match_id d2 t2 o2)
    ∧ (∀ (d : PyDate) (t o : String),
      create_match_id d t o
        = strftimeYmd d ++ "_H" ++ t ++ "_" ++ spaceToUnderscore (pyStrip o))
    ∧ create_match_id ⟨2024, 3, 1⟩ "1" "FC Falcon" = "2024-03-01_H1_FC_Falcon" := by
  refine ⟨?_, fun d t o => rfl, by decide⟩
  intro d1 d2 t1 t2 o1 o2 hd ht ho
  subst hd; subst ht; subst ho; rfl

/-- Witness for C4 at concrete inputs. -/
theorem create_match_id_spec_instance :
    create_match_id ⟨2024, 3, 1⟩ "1" "FC Falcon"
      = create_match_id ⟨2024, 3, 1⟩ "1" "FC Falcon" :=
  create_match_id_spec.1 ⟨2024, 3, 1⟩ ⟨2024, 3, 1⟩ "1" "1" "FC Falcon" "FC Falcon"
    rfl rfl rfl

/-- Claim C5: there is a pair of opponent strings differing only in internal
spacing that `create_match_id` maps to the same match id (with identical date
and team number): `A _  B` and `A  _ B` both become `..._A____B`. -/
theorem create_match_id_internal_spacing_collision :
    differ_only_in_internal_spacing "A _  B" "A  _ B"
    ∧ create_match_id ⟨2024, 3, 1⟩ "1" "A _  B"
        = create_match_id ⟨2024, 3, 1⟩ "1" "A  _ B" := by
  decide

/-- Claim C7: confirming the player selection with an empty selected set is
rejected: the session is returned untouched and the only effect is the
warning flag. -/
theorem empty_selection_rejected (players : List Player)
    (selected : List String) (s : Session) (h : selected = []) :
    start_match_click players selected s = (s, true) := by
  subst h; rfl

/-- Witness for C7 at concrete inputs. -/
theorem empty_selection_rejected_instance :
    start_match_click [anna] [] s_ghost = (s_ghost, true) :=
  empty_selection_rejected [anna] [] s_ghost rfl

/-- Claim C8: the `Start ny kamp` handler resets every session slot to its
default from the `defaults` dict (step 1, no match, empty players and
events, cleared selections, half 1) and leaves the Record Store untouched. -/
theorem summary_reset_restores_defaults (s : Session) (store : Store) :
    (start_new_match_click s store).1.wizard_step = 1
    ∧ (start_new_match_click s store).1.current_match = none
    ∧ (start_new_match_click s store).1.match_players = []
    ∧ (start_new_match_click s store).1.events = []
    ∧ (start_new_match_click s store).1.selected_event = none
    ∧ (start_new_match_click s store).1.selected_player = none
    ∧ (start_new_match_click s store).1.current_half = 1
    ∧ (start_new_match_click s store).2 = store :=
  ⟨rfl, rfl, rfl, rfl, rfl, rfl, rfl, rfl⟩

/-- Claim C9: `build_event` stamps the given time, copies the match id, the
event type and the player's name, primary position and primary team, and
leaves both `half` and `delta` unset; `_event_to_row` serializes a missing
`delta` as 1. -/
theorem build_event_spec :
    (∀ (now : String) (p : Player) (et mid : String),
      (build_event now p et mid).timestamp = now
      ∧ (build_event now p et mid).match_id = mid
      ∧ (build_event now p et mid).event = et
      ∧ (build_event now p et mid).player = p.name
      ∧ (build_event now p et mid).pos_primary = p.pos_primary
      ∧ (build_event now p et mid).team_primary = p.team_primary
      ∧ (build_event now p et mid).half = none
      ∧ (build_event now p et mid).delta = none)
    ∧ (∀ e : Event, e.delta = none → (event_to_row e).delta = 1) := by
  refine ⟨fun now p et mid => ⟨rfl, rfl, rfl, rfl, rfl, rfl, rfl, rfl⟩, ?_⟩
  intro e h
  simp [event_to_row, h]

/-- Witness for C9 at a concrete event lacking a delta. -/
theorem build_event_spec_instance :
    (event_to_row (build_event "t" anna "Mål" "m")).delta = 1 :=
  build_event_spec.2 (build_event "t" anna "Mål" "m") rfl

/-- Claim C10: `write_stats_rows` on an empty event list returns the store
unchanged: same rows, same worksheet-open count, same append count, and no
error even when the remote store would raise. -/
theorem write_stats_rows_empty_noop (store : Store) :
    write_stats_rows [] store = Except.ok store :=
  rfl

/-- Counterexample to claim C3: with Register enabled and a stale armed
player name, the lookup misses, and the handler clears only
`selected_player`; `selected_event` keeps its value, so it is false that
both selection slots are cleared regardless of lookup success. -/
theorem register_miss_keeps_selected_event :
    register_enabled s_ghost = true
    ∧ find_player s_ghost.match_players (s_ghost.selected_player.getD "") = none
    ∧ (register_click "t" s_ghost).1.selected_event = some "Mål"
    ∧ (register_click "t" s_ghost).1.events = s_ghost.events := by
  decide

/-- Claim C3 as amended: Register is enabled exactly when both selection
slots hold non-empty strings; on a lookup miss no event is constructed or
appended and only `selected_player` is cleared (with a warning), while
`selected_event` is retained; on a lookup hit one stamped event is appended
and both slots are cleared. -/
theorem register_click_spec :
    (∀ s : Session, register_enabled s = true ↔
      ((s.selected_event.getD "") ≠ "" ∧ (s.selected_player.getD "") ≠ ""))
    ∧ (∀ (now : String) (s : Session),
      find_player s.match_players (s.selected_player.getD "") = none →
      register_click now s = ({ s with selected_player := none }, true))
    ∧ (∀ (now : String) (s : Session) (p : Player),
      find_player s.match_players (s.selected_player.getD "") = some p →
      register_click now s =
        ({ s with
            events := s.events ++
              [{ build_event now p (s.selected_event.getD "") (session_match_id s) with
                  half := some s.current_half }]
            selected_event := none
            selected_player := none },
          false)) := by
  refine ⟨?_, ?_, ?_⟩
  · intro s
    simp [register_enabled]
  · intro now s h
    unfold register_click
    rw [h]
  · intro now s p h
    unfold register_click
    rw [h]

/-- Witness for C3 (amended): concrete miss and hit instances. -/
theorem register_click_spec_instance :
    register_click "t" s_ghost = ({ s_ghost with selected_player := none }, true)
    ∧ register_click "t" { s_ghost with selected_player := some "Anna" } =
        ({ s_ghost with
            selected_player := none
            selected_event := none
            events := s_ghost.events ++
              [{ build_event "t" anna "Mål" "2024-03-01_H1_FC_Falcon" with
                  half := some 1 }] },
          false) := by
  constructor
  · exact register_click_spec.2.1 "t" s_ghost (by decide)
  · have h := register_click_spec.2.2 "t"
      { s_ghost with selected_player := some "Anna" } anna (by decide)
    rw [h]
    decide

/-- Claim C6: between the reset on match creation and the end-of-match
flush, `events` only grows by appends at its end: every Record-step action
extends the list by a (possibly empty) suffix, half toggles and selection
clicks leave it untouched (so recorded events keep their stamped half), a
successful registration grows it by exactly one, a lookup miss leaves it
unchanged, a half-time capture grows it by exactly one, and entering the
Record step from player selection leaves it unchanged. -/
theorem events_append_only :
    (∀ (now : String) (a : RecordAction) (s : Session) (store : Store),
      ∃ tail, (step_record_action now a s store).1.events = s.events ++ tail)
    ∧ (∀ (now : String) (s : Session) (store : Store),
      (step_record_action now RecordAction.setHalfOne s store).1.events = s.events
      ∧ (step_record_action now RecordAction.setHalfTwo s store).1.events = s.events)
    ∧ (∀ (now label nm : String) (s : Session) (store : Store),
      (step_record_action now (RecordAction.selectType label) s store).1.events = s.events
      ∧ (step_record_action now (RecordAction.selectPlayerBtn nm) s store).1.events
          = s.events)
    ∧ (∀ (now : String) (s : Session) (p : Player),
      find_player s.match_players (s.selected_player.getD "") = some p →
      (register_click now s).1.events.length = s.events.length + 1)
    ∧ (∀ (now : String) (s : Session),
      find_player s.match_players (s.selected_player.getD "") = none →
      (register_click now s).1.events = s.events)
    ∧ (∀ (now mid : String) (ours opp : Nat) (s : Session),
      (half_dialog_save now mid ours opp s).events.length = s.events.length + 1)
    ∧ (∀ (players : List Player) (selected : List String) (s : Session),
      (start_match_click players selected s).1.events = s.events) := by
  refine ⟨?_, fun now s store => ⟨rfl, rfl⟩, fun now label nm s store => ⟨rfl, rfl⟩,
    ?_, ?_, ?_, ?_⟩
  · intro now a s store
    cases a with
    | setHalfOne => exact ⟨[], (List.append_nil _).symm⟩
    | setHalfTwo => exact ⟨[], (List.append_nil _).symm⟩
    | halfDialogSave ours opp => exact ⟨_, rfl⟩
    | registerClick =>
      show ∃ tail, (register_click now s).1.events = s.events ++ tail
      unfold register_click
      cases h : find_player s.match_players (s.selected_player.getD "") with
      | none => exact ⟨[], (List.append_nil _).symm⟩
      | some p => exact ⟨_, rfl⟩
    | selectType label => exact ⟨[], (List.append_nil _).symm⟩
    | selectPlayerBtn nm => exact ⟨[], (List.append_nil _).symm⟩
  · intro now s p h
    unfold register_click
    rw [h]
    simp
  · intro now s h
    unfold register_click
    rw [h]
  · intro now mid ours opp s
    simp [half_dialog_save]
  · intro players selected s
    unfold start_match_click
    by_cases h : selected.isEmpty <;> simp [h]

/-- Witness for C6: a concrete successful registration grows `events` by
one. -/
theorem events_append_only_instance :
    (register_click "t" { s_ghost with selected_player := some "Anna" }).1.events.length
      = s_ghost.events.length + 1 :=
  events_append_only.2.2.2.1 "t" { s_ghost with selected_player := some "Anna" }
    anna (by decide)

/-- Claim C2: the end-of-match save appends exactly the three meta events
`SLUT_RESULTAT`, `KAMPENS_SPILLER`, `KOMMENTAR` (each with delta 0, empty
player, position and team, and the payload in `meta_value`) to the
in-memory list, then performs exactly one batch append of the whole
accumulated list to the Record Store; no Record-step action ever touches
the store. -/
theorem end_dialog_single_batch_flush (now mid : String) (ours opp : Nat)
    (mvp comment : String) (s : Session) (store : Store)
    (hf : store.fail = false) :
    (end_dialog_save now mid ours opp mvp comment s store).1.events
      = s.events ++
        [ make_meta_event now s.current_half mid "SLUT_RESULTAT" (score_text ours opp),
          make_meta_event now s.current_half mid "KAMPENS_SPILLER" mvp,
          make_meta_event now s.current_half mid "KOMMENTAR" (pyStrip comment) ]
    ∧ (end_dialog_save now mid ours opp mvp comment s store).1.wizard_step = 4
    ∧ (end_dialog_save now mid ours opp mvp comment s store).2
      = Except.ok
          { store with
            stats_rows := store.stats_rows ++
              ((end_dialog_save now mid ours opp mvp comment s store).1.events).map
                event_to_row
            worksheet_opens := store.worksheet_opens + 1
            append_calls := store.append_calls + 1 }
    ∧ (∀ (h : Nat) (mid2 ev v : String),
      (make_meta_event now h mid2 ev v).delta = some 0
      ∧ (make_meta_event now h mid2 ev v).player = ""
      ∧ (make_meta_event now h mid2 ev v).pos_primary = ""
      ∧ (make_meta_event now h mid2 ev v).team_primary = ""
      ∧ (make_meta_event now h mid2 ev v).meta_value = some v)
    ∧ (∀ (now2 : String) (a : RecordAction) (s2 : Session) (store2 : Store),
      (step_record_action now2 a s2 store2).2 = store2) := by
  have hne : ∀ (l : List Event) (m1 m2 m3 : Event),
      (l ++ [m1, m2, m3]).isEmpty = false := by
    intro l m1 m2 m3; cases l <;> rfl
  have hw : ∀ (l : List Event) (m1 m2 m3 : Event),
      write_stats_rows (l ++ [m1, m2, m3]) store
        = Except.ok
            { store with
              stats_rows := store.stats_rows ++ (l ++ [m1, m2, m3]).map event_to_row
              worksheet_opens := store.worksheet_opens + 1
              append_calls := store.append_calls + 1 } := by
    intro l m1 m2 m3
    unfold write_stats_rows
    rw [hne, hf]
    simp
  refine ⟨?_, ?_, ?_, fun h mid2 ev v => ⟨rfl, rfl, rfl, rfl, rfl⟩, ?_⟩
  · unfold end_dialog_save
    simp [hw]
  · unfold end_dialog_save
    simp [hw]
  · unfold end_dialog_save
    simp [hw]
  · intro now2 a s2 store2
    cases a <;> rfl

/-- Witness for C2: a concrete end-of-match flush against a reachable
store advances the wizard to the summary step. -/
theorem end_dialog_single_batch_flush_instance :
    (end_dialog_save "t2" "2024-03-01_H1_FC_Falcon" 20 18 "Anna" " Godt kamp "
        s_pre store_ok).1.wizard_step = 4 :=
  (end_dialog_single_batch_flush "t2" "2024-03-01_H1_FC_Falcon" 20 18 "Anna"
    " Godt kamp " s_pre store_ok rfl).2.1

/-- Claim C1 evaluated at a failing input: when the batch append raises, the
step does not advance (the exception ends the script run before
`wizard_step = 4`), but the in-memory events list has ALREADY been extended
with the three meta events, so the session is NOT at its pre-attempt values,
and retrying the same save appends three further meta events (duplication).
This contradicts the claim that the session state, including the events
list, remains exactly at its pre-attempt values. -/
theorem end_dialog_failed_write_leaves_meta_events :
    (end_dialog_save "t2" "2024-03-01_H1_FC_Falcon" 20 18 "Anna" "Godt kamp"
        s_pre store_down).2 = Except.error ()
    ∧ (end_dialog_save "t2" "2024-03-01_H1_FC_Falcon" 20 18 "Anna" "Godt kamp"
        s_pre store_down).1.wizard_step = 3
    ∧ (end_dialog_save "t2" "2024-03-01_H1_FC_Falcon" 20 18 "Anna" "Godt kamp"
        s_pre store_down).1.events ≠ s_pre.events
    ∧ (end_dialog_save "t2" "2024-03-01_H1_FC_Falcon" 20 18 "Anna" "Godt kamp"
        s_pre store_down).1.events.length = s_pre.events.length + 3
    ∧ (end_dialog_save "t3" "2024-03-01_H1_FC_Falcon" 20 18 "Anna" "Godt kamp"
        (end_dialog_save "t2" "2024-03-01_H1_FC_Falcon" 20 18 "Anna" "Godt kamp"
          s_pre store_down).1
        store_down).1.events.length = s_pre.events.length + 6 := by
  refine ⟨rfl, rfl, by decide, rfl, rfl⟩
